import Mathlib

/-!
Verification of the web service in `src/app/main.py`: a FastAPI application
registering two GET routes (`/` and `/health`), each returning a fixed
one-key JSON object.
-/

namespace CICD

/-- JSON values, restricted to the shapes appearing in `src/app/main.py`:
string literals and objects with string keys. -/
inductive Json where
  | str : String → Json
  | obj : List (String × Json) → Json

/-- HTTP request methods. -/
inductive Method where
  | GET | POST | PUT | DELETE | PATCH | HEAD | OPTIONS
  deriving DecidableEq, Repr

instance : BEq Method := ⟨fun a b => decide (a = b)⟩

instance : LawfulBEq Method where
  eq_of_beq h := of_decide_eq_true h
  rfl := by simp [BEq.beq]

/-- An HTTP request. The dispatcher of `src/app/main.py` only ever inspects
the method and the path; headers, query string and body are carried so that
independence from them can be stated. -/
structure Request where
  method : Method
  path : String
  headers : List (String × String)
  query : List (String × String)
  body : String

/-- A handler computation: either an immediate return of a value, or an
external call that waits for a reply before continuing. Both handlers in
`src/app/main.py` are a single `return` statement, i.e. immediate returns. -/
inductive Comp (α : Type) where
  | ret : α → Comp α
  | callExternal : String → (String → Comp α) → Comp α

/-- Run a handler computation against an environment answering external
calls. Terminates structurally on the computation. -/
def Comp.exec {α : Type} (env : String → String) : Comp α → α
  | .ret a => a
  | .callExternal name k => (k (env name)).exec env

/-- `true` when the computation returns at once, without suspending or
performing any external call. -/
def Comp.isImmediate {α : Type} : Comp α → Bool
  | .ret _ => true
  | .callExternal _ _ => false

/-- The value returned by the handler `root` in `src/app/main.py`:
`{"message": "Hello from FastAPI (Docker)"}`. -/
def root : Json := .obj [("message", .str "Hello from FastAPI (Docker)")]

/-- The value returned by the handler `health` in `src/app/main.py`:
`{"status": "ok"}`. -/
def health : Json := .obj [("status", .str "ok")]

/-- The body of `async def root()`: a single `return` statement, no awaits,
no external calls. -/
def rootHandler : Comp Json := .ret root

/-- The body of `async def health()`: a single `return` statement, no
awaits, no external calls. -/
def healthHandler : Comp Json := .ret health

/-- A registered route: the HTTP method and path it is bound to, and its
handler. -/
structure RouteEntry where
  method : Method
  path : String
  handler : Comp Json

/-- The application state: the route table held by the `FastAPI()` app
object. Nothing else in `src/app/main.py` is mutable module state. -/
structure AppState where
  routes : List RouteEntry

/-- `app = FastAPI()` followed by the two `@app.get` registrations of
`src/app/main.py`: exactly two routes, `GET /` → `root` and
`GET /health` → `health`. -/
def app : AppState :=
  { routes := [⟨.GET, "/", rootHandler⟩, ⟨.GET, "/health", healthHandler⟩] }

/-- An HTTP response: status code and JSON body. -/
structure Response where
  status : Nat
  body : Json

/-- Modelled from the spec: the dispatch loop itself belongs to FastAPI,
which is a dependency and not part of this repository; the spec says
requests to any other path get the framework's default not-found behaviour
(a non-200 status). A request is matched against the registered routes by
method and path; a match runs the route's handler and answers 200 with its
result; a path registered only under other methods gets the framework's
405 default; an unregistered path gets the framework's 404 default. The
state is returned unchanged: handlers cannot touch it. -/
def dispatch (env : String → String) (st : AppState) (req : Request) :
    Response × AppState :=
  match st.routes.find? (fun r => r.method == req.method && r.path == req.path) with
  | some r => ({ status := 200, body := r.handler.exec env }, st)
  | none =>
    if st.routes.any (fun r => r.path == req.path) then
      ({ status := 405, body := .obj [("detail", .str "Method Not Allowed")] }, st)
    else
      ({ status := 404, body := .obj [("detail", .str "Not Found")] }, st)

/-- `true` when the JSON value is an object with exactly one key whose
value is a string. -/
def isSingletonStringObj : Json → Bool
  | .obj [(_, .str _)] => true
  | _ => false

/-- Dispatch never changes the application state: every branch hands the
route table back untouched. -/
theorem dispatch_state (env : String → String) (st : AppState) (req : Request) :
    (dispatch env st req).2 = st := by
  unfold dispatch
  split
  · rfl
  · split <;> rfl

/-- Characterisation of the response of the two-route app: the method and
path of the request fully determine it; headers, query string, body and
the external-call environment play no part. -/
theorem dispatch_app_fst (env : String → String) (m : Method) (p : String)
    (hs q : List (String × String)) (b : String) :
    (dispatch env app ⟨m, p, hs, q, b⟩).1 =
      if m = Method.GET ∧ p = "/" then ⟨200, root⟩
      else if m = Method.GET ∧ p = "/health" then ⟨200, health⟩
      else if p = "/" ∨ p = "/health" then
        ⟨405, .obj [("detail", .str "Method Not Allowed")]⟩
      else ⟨404, .obj [("detail", .str "Not Found")]⟩ := by
  by_cases hp : p = "/"
  · subst hp
    by_cases hm : m = Method.GET
    · subst hm; rfl
    · have hbm : (Method.GET == m) = false := beq_eq_false_iff_ne.mpr (Ne.symm hm)
      simp [dispatch, app, List.find?, List.any, hm, hbm]
  · by_cases hp2 : p = "/health"
    · subst hp2
      by_cases hm : m = Method.GET
      · subst hm; rfl
      · have hbm : (Method.GET == m) = false := beq_eq_false_iff_ne.mpr (Ne.symm hm)
        simp [dispatch, app, List.find?, List.any, hm, hbm]
    · have hb1 : ("/" == p) = false := beq_eq_false_iff_ne.mpr (Ne.symm hp)
      have hb2 : ("/health" == p) = false := beq_eq_false_iff_ne.mpr (Ne.symm hp2)
      simp [dispatch, app, List.find?, List.any, hp, hp2, hb1, hb2]

/-- C1: every request GET / — whatever its headers, query string, body or
external environment — is answered with status 200 and exactly the JSON
body \x7b"message": "Hello from FastAPI (Docker)"\x7d. -/
theorem claim_C1_root_response (env : String → String)
    (hs q : List (String × String)) (b : String) :
    (dispatch env app ⟨Method.GET, "/", hs, q, b⟩).1 =
      ⟨200, Json.obj [("message", Json.str "Hello from FastAPI (Docker)")]⟩ := rfl

/-- C2: every request GET /health — whatever its headers, query string,
body or external environment — is answered with status 200 and exactly the
JSON body \x7b"status": "ok"\x7d. -/
theorem claim_C2_health_response (env : String → String)
    (hs q : List (String × String)) (b : String) :
    (dispatch env app ⟨Method.GET, "/health", hs, q, b⟩).1 =
      ⟨200, Json.obj [("status", Json.str "ok")]⟩ := rfl

/-- C3: a GET request to any path other than / and /health is answered
with a status that is not 200 (the framework's default not-found
behaviour). -/
theorem claim_C3_unknown_path (env : String → String) (req : Request)
    (h1 : req.path ≠ "/") (h2 : req.path ≠ "/health") :
    (dispatch env app req).1.status ≠ 200 := by
  obtain ⟨m, p, hs, q, b⟩ := req
  rw [dispatch_app_fst]
  simp_all

/-- Witness for C3 at the concrete request GET /nope. -/
theorem claim_C3_witness :
    (dispatch (fun _ => "") app ⟨Method.GET, "/nope", [], [], ""⟩).1.status ≠ 200 :=
  claim_C3_unknown_path (fun _ => "") ⟨Method.GET, "/nope", [], [], ""⟩
    (by decide) (by decide)

/-- C4: both endpoints are idempotent: a second call to the same endpoint,
made in the state the first call left behind and with arbitrary different
headers, query string, body and environment, returns a body identical to
the first call's body. -/
theorem claim_C4_idempotent (env₁ env₂ : String → String) (r₁ r₂ : Request)
    (hm₁ : r₁.method = Method.GET) (hm₂ : r₂.method = Method.GET)
    (hp : r₂.path = r₁.path) (he : r₁.path = "/" ∨ r₁.path = "/health") :
    (dispatch env₂ (dispatch env₁ app r₁).2 r₂).1.body =
      (dispatch env₁ app r₁).1.body := by
  rw [dispatch_state]
  obtain ⟨m₁, p₁, hs₁, q₁, b₁⟩ := r₁
  obtain ⟨m₂, p₂, hs₂, q₂, b₂⟩ := r₂
  simp only at hm₁ hm₂ hp he
  subst hm₁ hm₂ hp
  rcases he with he | he <;> subst he <;> rfl

/-- Witness for C4: two consecutive calls to GET / return the same body. -/
theorem claim_C4_witness :
    (dispatch (fun _ => "x")
        (dispatch (fun _ => "") app ⟨Method.GET, "/", [], [], ""⟩).2
        ⟨Method.GET, "/", [("a", "b")], [], "payload"⟩).1.body =
      (dispatch (fun _ => "") app ⟨Method.GET, "/", [], [], ""⟩).1.body :=
  claim_C4_idempotent (fun _ => "") (fun _ => "x")
    ⟨Method.GET, "/", [], [], ""⟩ ⟨Method.GET, "/", [("a", "b")], [], "payload"⟩
    rfl rfl rfl (Or.inl rfl)

/-- C5: handling any request leaves the whole program state — the app
object and its route table, the only mutable module state — unchanged. -/
theorem claim_C5_no_side_effects (env : String → String) (req : Request) :
    (dispatch env app req).2 = app :=
  dispatch_state env app req

/-- C6: the response depends on nothing but the request method and path:
two runs of the dispatcher on requests agreeing on method and path, under
any two external environments and any headers, query strings or bodies,
produce equal responses. -/
theorem claim_C6_noninterference (env₁ env₂ : String → String)
    (r₁ r₂ : Request) (hm : r₁.method = r₂.method) (hp : r₁.path = r₂.path) :
    (dispatch env₁ app r₁).1 = (dispatch env₂ app r₂).1 := by
  obtain ⟨m₁, p₁, hs₁, q₁, b₁⟩ := r₁
  obtain ⟨m₂, p₂, hs₂, q₂, b₂⟩ := r₂
  simp only at hm hp
  subst hm hp
  rw [dispatch_app_fst, dispatch_app_fst]

/-- Witness for C6: GET / with different headers, bodies and environments
yields the same response. -/
theorem claim_C6_witness :
    (dispatch (fun _ => "") app ⟨Method.GET, "/", [], [], ""⟩).1 =
      (dispatch (fun _ => "y") app ⟨Method.GET, "/", [("h", "v")], [("k", "w")], "B"⟩).1 :=
  claim_C6_noninterference (fun _ => "") (fun _ => "y")
    ⟨Method.GET, "/", [], [], ""⟩ ⟨Method.GET, "/", [("h", "v")], [("k", "w")], "B"⟩
    rfl rfl

/-- C7: both registered handlers are a single immediate return — no
suspension, no blocking, no external call — and executing either one
terminates at once with its fixed value, whatever the environment. -/
theorem claim_C7_handlers_immediate :
    (app.routes.all fun r => r.handler.isImmediate) = true ∧
      (∀ env : String → String,
        rootHandler.exec env = root ∧ healthHandler.exec env = health) :=
  ⟨rfl, fun _ => ⟨rfl, rfl⟩⟩

/-- C8: each response payload is an object with exactly one key whose
value is a fixed string, and every successful response carries exactly
that value — in this value semantics no payload is shared or mutated
across requests. -/
theorem claim_C8_payload_shape :
    isSingletonStringObj root = true ∧ isSingletonStringObj health = true ∧
      (∀ (env : String → String) (hs q : List (String × String)) (b : String),
        (dispatch env app ⟨Method.GET, "/", hs, q, b⟩).1.body = root) ∧
      (∀ (env : String → String) (hs q : List (String × String)) (b : String),
        (dispatch env app ⟨Method.GET, "/health", hs, q, b⟩).1.body = health) :=
  ⟨rfl, rfl, fun _ _ _ _ => rfl, fun _ _ _ _ => rfl⟩

/-- C9: only GET is registered for / and /health: a request to either path
with any other method is not answered with 200 and its body is neither
handler's success body. -/
theorem claim_C9_other_methods (env : String → String) (req : Request)
    (hp : req.path = "/" ∨ req.path = "/health") (hm : req.method ≠ Method.GET) :
    (dispatch env app req).1.status ≠ 200 ∧
      (dispatch env app req).1.body ≠ root ∧
      (dispatch env app req).1.body ≠ health := by
  obtain ⟨m, p, hs, q, b⟩ := req
  simp only at hp hm
  rw [dispatch_app_fst]
  rcases hp with hp | hp <;> subst hp <;>
    simp [hm, root, health]

/-- Witness for C9 at the concrete request POST /. -/
theorem claim_C9_witness :
    (dispatch (fun _ => "") app ⟨Method.POST, "/", [], [], ""⟩).1.status ≠ 200 ∧
      (dispatch (fun _ => "") app ⟨Method.POST, "/", [], [], ""⟩).1.body ≠ root ∧
      (dispatch (fun _ => "") app ⟨Method.POST, "/", [], [], ""⟩).1.body ≠ health :=
  claim_C9_other_methods (fun _ => "") ⟨Method.POST, "/", [], [], ""⟩
    (Or.inl rfl) (by decide)

/-- C10: the route table fixed at module load has exactly the two entries
GET / and GET /health, and every dispatch returns the route table
unchanged, whatever state it starts from. -/
theorem claim_C10_route_table :
    (app.routes.map fun r => (r.method, r.path)) =
        [(Method.GET, "/"), (Method.GET, "/health")] ∧
      (∀ (env : String → String) (st : AppState) (req : Request),
        (dispatch env st req).2.routes = st.routes) :=
  ⟨rfl, fun env st req => by rw [dispatch_state]⟩

end CICD
